import Mathlib

/-!
A shallow embedding of the external-job Python wrapper
(`src/packages/server/examples/external-jobs/python/donkeylabs_job.py`).

Pure builders (the message dictionaries, JSON encoding) are translated as
Lean functions.  Effectful code is translated as explicit state passing on
`JobState` (the mutable fields of the `DonkeylabsJob` instance), with the
outcome of each OS-level call (`socket.connect`, `socket.sendall`) supplied
as an `Except PyExc Unit` environment parameter.  Python exception control
flow is translated as `Except`: a function whose result type is
`Except PyExc _` may let an exception escape; `except` clauses are explicit
branches on the raised exception class.
-/

namespace DonkeylabsJob

/-- Python runtime values as they appear in the JSON messages.  `circular`
stands for a value participating in a reference cycle, the kind of value
`json.dumps` rejects by raising `ValueError`. -/
inductive PyVal where
  | str (s : String)
  | num (n : Int)
  | bool (b : Bool)
  | none
  | list (l : List PyVal)
  | dict (d : List (String × PyVal))
  | circular

/-- Python truthiness for the values the wrapper tests (`if message:`,
`if data:`, `if not job_id:`, ...). -/
def PyVal.truthy : PyVal → Bool
  | .str s => !(s == "")
  | .num n => !(n == 0)
  | .bool b => b
  | .none => false
  | .list l => !l.isEmpty
  | .dict d => !d.isEmpty
  | .circular => true

/-- Python `x is None`. -/
def PyVal.isNone : PyVal → Bool
  | .none => true
  | _ => false

/-- A Python `dict` with string keys, in insertion order. -/
abbrev Dict := List (String × PyVal)

/-- Python `d[k] = v`: overwrite in place when the key exists, else append. -/
def setKey : Dict → String → PyVal → Dict
  | [], k, v => [(k, v)]
  | (k0, v0) :: rest, k, v =>
    if k0 = k then (k, v) :: rest else (k0, v0) :: setKey rest k v

/-- Python `d.get(k)`, `none` when the key is absent. -/
def getKey : Dict → String → Option PyVal
  | [], _ => Option.none
  | (k0, v0) :: rest, k => if k0 = k then some v0 else getKey rest k

mutual

/-- Whether a value contains the cycle marker (so `json.dumps` would raise). -/
def pvCirc : PyVal → Bool
  | PyVal.circular => true
  | PyVal.list l => listCirc l
  | PyVal.dict d => dictCirc d
  | _ => false

/-- `pvCirc` over the elements of a Python list. -/
def listCirc : List PyVal → Bool
  | [] => false
  | v :: vs => pvCirc v || listCirc vs

/-- `pvCirc` over the values of a Python dict. -/
def dictCirc : List (String × PyVal) → Bool
  | [] => false
  | (_, v) :: kvs => pvCirc v || dictCirc kvs

end

/-- JSON string escaping for one character (quote and backslash). -/
def escapeChar (c : Char) : String :=
  if c = '"' then "\\\"" else if c = '\\' then "\\\\" else String.singleton c

/-- A JSON string literal. -/
def quoteStr (s : String) : String :=
  "\"" ++ String.join (s.toList.map escapeChar) ++ "\""

mutual

/-- Serialization of one value, as `json.dumps` renders it. -/
def pvSer : PyVal → String
  | PyVal.str s => quoteStr s
  | PyVal.num n => toString n
  | PyVal.bool true => "true"
  | PyVal.bool false => "false"
  | PyVal.none => "null"
  | PyVal.circular => "null"
  | PyVal.list l => "[" ++ listSer l ++ "]"
  | PyVal.dict d => "\x7b" ++ dictSer d ++ "\x7d"

/-- Serialization of the elements of a list, comma separated. -/
def listSer : List PyVal → String
  | [] => ""
  | [v] => pvSer v
  | v :: vs => pvSer v ++ ", " ++ listSer vs

/-- Serialization of the entries of a dict, comma separated. -/
def dictSer : List (String × PyVal) → String
  | [] => ""
  | [(k, v)] => quoteStr k ++ ": " ++ pvSer v
  | (k, v) :: kvs => quoteStr k ++ ": " ++ pvSer v ++ ", " ++ dictSer kvs

end

/-- The Python exception classes the wrapper distinguishes.  `BrokenPipeError`
and `ConnectionResetError` are subclasses of `OSError`; `valueError` is what
`json.dumps` raises on a circular structure; `genericExc` is any other
subclass of `Exception`. -/
inductive PyExc where
  | brokenPipe
  | connReset
  | osError
  | valueError
  | typeError
  | genericExc
deriving DecidableEq, Repr

/-- Membership in the first `except` clause of `_send_message`:
`except (BrokenPipeError, ConnectionResetError, OSError)`, which by the
Python class hierarchy is exactly instance-of `OSError`. -/
def PyExc.isOSErrorFamily : PyExc → Bool
  | .brokenPipe => true
  | .connReset => true
  | .osError => true
  | _ => false

/-- Embeds `json.dumps(message)` on a message dict: raises `ValueError`
("Circular reference detected") on a cyclic structure, otherwise returns the
JSON text. -/
def json_dumps (d : Dict) : Except PyExc String :=
  if dictCirc d then Except.error PyExc.valueError
  else Except.ok ("\x7b" ++ dictSer d ++ "\x7d")

/-- The fields of a `DonkeylabsJob` instance.  Thread/socket attributes that
hold objects are modelled by whether they are `None`:  `socket` is
`self._socket is not None`, `reconnect_thread` is
`self._reconnect_thread is not None`, and so on. -/
structure JobState where
  job_id : PyVal
  name : PyVal
  data : PyVal
  socket_path : PyVal
  heartbeat_interval : ℚ
  reconnect_interval : ℚ
  max_reconnect_attempts : ℕ
  socket : Bool
  heartbeat_thread : Bool
  reconnect_thread : Bool
  running : Bool
  connected : Bool

/-- Embeds `DonkeylabsJob.__init__`. -/
def mkJob (job_id name data socket_path : PyVal)
    (heartbeat_interval reconnect_interval : ℚ)
    (max_reconnect_attempts : ℕ) : JobState :=
  { job_id := job_id, name := name, data := data, socket_path := socket_path,
    heartbeat_interval := heartbeat_interval,
    reconnect_interval := reconnect_interval,
    max_reconnect_attempts := max_reconnect_attempts,
    socket := false, heartbeat_thread := false, reconnect_thread := false,
    running := false, connected := false }

/-- `__init__` with its Python keyword defaults:
`heartbeat_interval=5.0, reconnect_interval=2.0, max_reconnect_attempts=30`. -/
def mkJobDefault (job_id name data socket_path : PyVal) : JobState :=
  mkJob job_id name data socket_path 5 2 30

/-- The observable outcome of one `_send_message` call: the instance state
afterwards, the returned boolean, the caller's dict afterwards (the code
mutates the dict it is handed), the frame fully handed to the transport (if
any), and whether this call spawned a reconnect thread. -/
structure SendResult where
  st : JobState
  ret : Bool
  msgAfter : Dict
  sent : Option String
  spawned : Bool

/-- The two stamping assignments of `_send_message`
(`message["jobId"] = self.job_id`; `message["timestamp"] = int(time.time()*1000)`). -/
def stampMsg (st : JobState) (message : Dict) (now_ms : Int) : Dict :=
  setKey (setKey message "jobId" st.job_id) "timestamp" (PyVal.num now_ms)

/-- The two `except` clauses of `_send_message`.  The first catches the
`OSError` family: it clears `_connected` and, when `self._running` holds and
no reconnect thread exists, starts `_reconnect_loop` on a background thread.
The second (`except Exception`) catches every other modelled exception and
just returns `False`. -/
def sendExcHandler (st : JobState) (stamped : Dict) (e : PyExc) :
    Except PyExc SendResult :=
  if e.isOSErrorFamily then
    if st.running = true ∧ st.reconnect_thread = false then
      Except.ok ⟨{ st with connected := false, reconnect_thread := true },
        false, stamped, Option.none, true⟩
    else
      Except.ok ⟨{ st with connected := false }, false, stamped,
        Option.none, false⟩
  else
    Except.ok ⟨st, false, stamped, Option.none, false⟩

/-- Embeds `_send_message` (lines 122-149).  `sendallResult` is the outcome
of `self._socket.sendall(...)`: `.ok ()` exactly when the full frame was
written, `.error e` when the transport call raised `e`.  `now_ms` is
`int(time.time() * 1000)`.  The send lock only serializes concurrent calls
and is the identity in this sequential model. -/
def send_message (st : JobState) (message : Dict)
    (sendallResult : Except PyExc Unit) (now_ms : Int) :
    Except PyExc SendResult :=
  if st.socket = false then
    Except.ok ⟨st, false, message, Option.none, false⟩
  else
    let stamped := stampMsg st message now_ms
    match json_dumps stamped with
    | Except.error e => sendExcHandler st stamped e
    | Except.ok s =>
      match sendallResult with
      | Except.error e => sendExcHandler st stamped e
      | Except.ok _ => Except.ok ⟨st, true, stamped, some (s ++ "\n"), false⟩

/-- `_send_message` never lets an exception escape (proved as part of C10);
this wrapper extracts the result, with an unreachable default branch. -/
def sendMessageRun (st : JobState) (message : Dict)
    (sendallResult : Except PyExc Unit) (now_ms : Int) : SendResult :=
  match send_message st message sendallResult now_ms with
  | Except.ok r => r
  | Except.error _ => ⟨st, false, message, Option.none, false⟩

/-- The message of `_send_started`: `{"type": "started"}`. -/
def startedMsg : Dict := [("type", PyVal.str "started")]

/-- The message of the heartbeat loop: `{"type": "heartbeat"}`. -/
def heartbeatMsg : Dict := [("type", PyVal.str "heartbeat")]

/-- Python `if x:` on an optional string argument (`message`, `stack`):
true exactly for a provided non-empty string. -/
def truthyStr : Option String → Bool
  | Option.none => false
  | some s => !(s == "")

/-- The dict `progress` builds before sending (lines 188-195):
`type`/`percent` always; `message` when truthy; `data` when kwargs given. -/
def progressMsg (percent : PyVal) (message : Option String) (data : Dict) :
    Dict :=
  [("type", PyVal.str "progress"), ("percent", percent)]
    ++ (match message with
        | some m => if m == "" then [] else [("message", PyVal.str m)]
        | Option.none => [])
    ++ (if data.isEmpty then [] else [("data", PyVal.dict data)])

/-- The dict `log` builds before sending (lines 213-219):
`type`/`level`/`message` always; `data` when kwargs given. -/
def logMsg (level : String) (message : String) (data : Dict) : Dict :=
  [("type", PyVal.str "log"), ("level", PyVal.str level),
   ("message", PyVal.str message)]
    ++ (if data.isEmpty then [] else [("data", PyVal.dict data)])

/-- The dict `complete` builds (lines 246-248): `result` only when the
argument `is not None`. -/
def completeMsg (result : PyVal) : Dict :=
  [("type", PyVal.str "completed")]
    ++ (if result.isNone then [] else [("result", result)])

/-- The dict `fail` builds (lines 260-265): `stack` only when truthy. -/
def failMsg (error : String) (stack : Option String) : Dict :=
  [("type", PyVal.str "failed"), ("error", PyVal.str error)]
    ++ (match stack with
        | some s => if s == "" then [] else [("stack", PyVal.str s)]
        | Option.none => [])

/-- The result of one public reporting method call: the state afterwards,
the value the Python method returns, and the result of the internal
`_send_message` call whose boolean the method discards. -/
structure CallResult where
  st : JobState
  ret : PyVal
  sendRes : SendResult

/-- Embeds `progress` (lines 174-197): build the dict, pass it to
`_send_message`, discard the boolean, return `None`. -/
def progress (st : JobState) (percent : PyVal) (message : Option String)
    (data : Dict) (sendallResult : Except PyExc Unit) (now_ms : Int) :
    CallResult :=
  let r := sendMessageRun st (progressMsg percent message data) sendallResult
    now_ms
  ⟨r.st, PyVal.none, r⟩

/-- Embeds `log` (lines 199-221). -/
def log (st : JobState) (level : String) (message : String) (data : Dict)
    (sendallResult : Except PyExc Unit) (now_ms : Int) : CallResult :=
  let r := sendMessageRun st (logMsg level message data) sendallResult now_ms
  ⟨r.st, PyVal.none, r⟩

/-- Embeds the `debug` convenience wrapper. -/
def debug (st : JobState) (message : String) (data : Dict)
    (sendallResult : Except PyExc Unit) (now_ms : Int) : CallResult :=
  log st "debug" message data sendallResult now_ms

/-- Embeds the `info` convenience wrapper. -/
def info (st : JobState) (message : String) (data : Dict)
    (sendallResult : Except PyExc Unit) (now_ms : Int) : CallResult :=
  log st "info" message data sendallResult now_ms

/-- Embeds the `warn` convenience wrapper. -/
def warn (st : JobState) (message : String) (data : Dict)
    (sendallResult : Except PyExc Unit) (now_ms : Int) : CallResult :=
  log st "warn" message data sendallResult now_ms

/-- Embeds the `error` convenience wrapper. -/
def error (st : JobState) (message : String) (data : Dict)
    (sendallResult : Except PyExc Unit) (now_ms : Int) : CallResult :=
  log st "error" message data sendallResult now_ms

/-- Embeds `complete` (lines 239-250). -/
def complete (st : JobState) (result : PyVal)
    (sendallResult : Except PyExc Unit) (now_ms : Int) : CallResult :=
  let r := sendMessageRun st (completeMsg result) sendallResult now_ms
  ⟨r.st, PyVal.none, r⟩

/-- Embeds `fail` (lines 252-267). -/
def fail (st : JobState) (error : String) (stack : Option String)
    (sendallResult : Except PyExc Unit) (now_ms : Int) : CallResult :=
  let r := sendMessageRun st (failMsg error stack) sendallResult now_ms
  ⟨r.st, PyVal.none, r⟩

/-- Embeds `_do_connect` (lines 66-77): `socket.socket(...)` always succeeds
and assigns `self._socket` before the OS-level `connect` call runs, so the
socket attribute is set even when `connect` raises.  `connectResult` is the
outcome of that OS-level call (the endpoint — Unix path or `tcp://host:port`
— selects the socket family but not the shape of the outcome). -/
def do_connect (st : JobState) (connectResult : Except PyExc Unit) :
    JobState × Except PyExc Unit :=
  ({ st with socket := true }, connectResult)

/-- Embeds `connect` (lines 58-64): `_do_connect` (whose exception
propagates), then set `_running`/`_connected`, start the heartbeat thread,
and send the started message.  Returns the state, the escaping exception if
any, and the started-send result. -/
def connect (st : JobState) (connectResult : Except PyExc Unit)
    (startedSendall : Except PyExc Unit) (now_ms : Int) :
    JobState × Except PyExc Unit × Option SendResult :=
  let (st1, r) := do_connect st connectResult
  match r with
  | Except.error e => (st1, Except.error e, Option.none)
  | Except.ok _ =>
    let st2 : JobState :=
      { st1 with running := true, connected := true, heartbeat_thread := true }
    let sr := sendMessageRun st2 startedMsg startedSendall now_ms
    (sr.st, Except.ok (), some sr)

/-- Embeds `disconnect` (lines 111-120): clear `_running`, join the
heartbeat thread (bounded), close the socket swallowing errors.  Closing
does not set `self._socket` to `None`, so the attribute stays non-None. -/
def disconnect (st : JobState) : JobState :=
  { st with running := false }

/-- The observable actions of one `_try_reconnect` run, in order. -/
inductive RAct where
  | closeSocket
  | connectAttempt
  | sleep (q : ℚ)
  | sentStarted
deriving DecidableEq, Repr

/-- The retry loop of `_try_reconnect` (lines 87-106), recursing on the
remaining attempts (`fuel` starts at `max_reconnect_attempts`).  `oc n` is
the outcome of the n-th `_do_connect` call of this run, `startedSendall` the
transport outcome for the post-reconnect started message.  Each iteration:
close the old socket if any (close errors swallowed), `_do_connect`; on
success set `_connected`, call `_send_started`, return `True`; on exception
sleep `reconnect_interval` and retry. -/
def tryReconnectLoop (oc : ℕ → Except PyExc Unit)
    (startedSendall : Except PyExc Unit) (now_ms : Int) :
    ℕ → ℕ → JobState → Bool × JobState × List RAct
  | _, 0, st => (false, st, [])
  | i, fuel+1, st =>
    let closeActs : List RAct := if st.socket then [RAct.closeSocket] else []
    let c := do_connect st (oc i)
    match c.2 with
    | Except.ok _ =>
      let st2 : JobState := { c.1 with connected := true }
      let sr := sendMessageRun st2 startedMsg startedSendall now_ms
      (true, sr.st, closeActs ++ [RAct.connectAttempt, RAct.sentStarted])
    | Except.error _ =>
      let rest := tryReconnectLoop oc startedSendall now_ms (i+1) fuel c.1
      (rest.1, rest.2.1,
        closeActs ++ [RAct.connectAttempt, RAct.sleep st.reconnect_interval]
          ++ rest.2.2)

/-- Embeds `_try_reconnect` (lines 79-109).  The body runs under the
reconnect-guard lock (`self._reconnect_lock`), which serializes whole runs
and is the identity in this sequential model; if already `_connected` it
returns `True` at once, else it runs the retry loop and returns `False`
after `max_reconnect_attempts` failures. -/
def try_reconnect (st : JobState) (oc : ℕ → Except PyExc Unit)
    (startedSendall : Except PyExc Unit) (now_ms : Int) :
    Bool × JobState × List RAct :=
  if st.connected then (true, st, [])
  else tryReconnectLoop oc startedSendall now_ms 0 st.max_reconnect_attempts st

/-- Embeds `_reconnect_loop` (lines 151-157), the body of the background
reconnect thread: run `_try_reconnect`, then set `self._reconnect_thread`
back to `None` whatever the outcome. -/
def reconnect_loop (st : JobState) (oc : ℕ → Except PyExc Unit)
    (startedSendall : Except PyExc Unit) (now_ms : Int) :
    Bool × JobState × List RAct :=
  let r := try_reconnect st oc startedSendall now_ms
  (r.1, { r.2.1 with reconnect_thread := false }, r.2.2)

/-- Python `str(e)` for a raised exception, used by `job.fail(str(e), ...)`. -/
def excStr : PyExc → String
  | PyExc.brokenPipe => "BrokenPipeError"
  | PyExc.connReset => "ConnectionResetError"
  | PyExc.osError => "OSError"
  | PyExc.valueError => "ValueError"
  | PyExc.typeError => "TypeError"
  | PyExc.genericExc => "Exception"

/-- The relevant process environment variables read by `run_job`. -/
structure Environ where
  job_id_env : Option String
  socket_path_env : Option String
  tcp_port_env : Option String

/-- What `sys.stdin.readline()` + `json.loads` yield in `run_job`:
`eof` when `readline` returns the falsy `""`; `parseFailure` when
`json.loads` raises `JSONDecodeError`; otherwise the parsed object. -/
inductive StdinPayload where
  | eof
  | parseFailure
  | parsed (payload : Dict)

/-- Python `os.environ.get(...)` as a value (`None` or a string). -/
def optStr : Option String → PyVal
  | Option.none => PyVal.none
  | some s => PyVal.str s

/-- The job id after the environment fallback of `run_job`
(lines 305, 311-312): the payload value when truthy, else
`DONKEYLABS_JOB_ID`. -/
def resolvedJobId (payload : Dict) (env : Environ) : PyVal :=
  let job_id := (getKey payload "jobId").getD PyVal.none
  if job_id.truthy then job_id else optStr env.job_id_env

/-- The socket path after the environment fallback of `run_job`
(lines 308, 313-317): the payload value when truthy, else
`DONKEYLABS_SOCKET_PATH`, else — when `DONKEYLABS_TCP_PORT` is truthy —
the synthesized `tcp://127.0.0.1:<port>`. -/
def resolvedSocketPath (payload : Dict) (env : Environ) : PyVal :=
  let socket_path := (getKey payload "socketPath").getD PyVal.none
  if socket_path.truthy then socket_path
  else
    let sp := optStr env.socket_path_env
    match env.tcp_port_env with
    | some port =>
      if (port == "") = false ∧ sp.truthy = false then
        PyVal.str ("tcp://127.0.0.1:" ++ port)
      else sp
    | Option.none => sp

/-- The non-handler inputs of one `run_job` execution: the handshake line,
the process environment, the heartbeat interval argument (Python default
5.0), the clock, and the transport outcomes for the OS calls `run_job`
triggers (initial connect, started frame, terminal frame). -/
structure RunEnv where
  stdin : StdinPayload
  env : Environ
  heartbeat_interval : ℚ
  now_ms : Int
  connectResult : Except PyExc Unit
  startedSendall : Except PyExc Unit
  terminalSendall : Except PyExc Unit

/-- The observable outcome of `run_job`: the process exit code, whether a
connection was attempted (`job.connect()` reached), and the final instance
state after `job.disconnect()` when a job object was constructed. -/
structure RunResult where
  exitCode : ℕ
  connectAttempted : Bool
  finalState : Option JobState

/-- Embeds `run_job` (lines 270-345).  The user handler is an opaque
callable: it receives the job (state) and either returns a value or raises,
modelled as `Except (String × String) PyVal` whose error carries
`(str(e), traceback.format_exc())`.  Exit paths: `sys.exit(1)` on missing
stdin line, parse failure, or missing jobId/socketPath after fallback (all
before any connection attempt); otherwise construct the job (reconnect
parameters left at their defaults 2.0 / 30) and `connect`; if `connect`
raises, `job.fail(str(e), tb)` then exit 1; on handler return,
`job.complete(result)` and exit 0; on handler raise, `job.fail` and
exit 1.  `finally: job.disconnect()` runs on every one of those paths. -/
def run_job (handler : JobState → JobState × Except (String × String) PyVal)
    (re : RunEnv) : RunResult :=
  match re.stdin with
  | StdinPayload.eof => ⟨1, false, Option.none⟩
  | StdinPayload.parseFailure => ⟨1, false, Option.none⟩
  | StdinPayload.parsed payload =>
    let job_id := resolvedJobId payload re.env
    let socket_path := resolvedSocketPath payload re.env
    if job_id.truthy = false ∨ socket_path.truthy = false then
      ⟨1, false, Option.none⟩
    else
      let name0 := (getKey payload "name").getD PyVal.none
      let name := if name0.truthy then name0 else PyVal.str "unknown"
      let data := (getKey payload "data").getD PyVal.none
      let st0 := mkJob job_id name data socket_path re.heartbeat_interval 2 30
      let c := connect st0 re.connectResult re.startedSendall re.now_ms
      match c.2.1 with
      | Except.error e =>
        let fr := fail c.1 (excStr e)
          (some "Traceback (most recent call last)") re.terminalSendall
          re.now_ms
        ⟨1, true, some (disconnect fr.st)⟩
      | Except.ok _ =>
        let h := handler c.1
        match h.2 with
        | Except.ok v =>
          let cr2 := complete h.1 v re.terminalSendall re.now_ms
          ⟨0, true, some (disconnect cr2.st)⟩
        | Except.error me =>
          let fr := fail h.1 me.1 (some me.2) re.terminalSendall re.now_ms
          ⟨1, true, some (disconnect fr.st)⟩

/-! ### Helper lemmas -/

/-- A concrete connected instance used by witnesses. -/
def stConn : JobState :=
  { mkJobDefault (PyVal.str "j1") (PyVal.str "demo") PyVal.none
      (PyVal.str "/tmp/x.sock") with
    socket := true, running := true, connected := true,
    heartbeat_thread := true }

theorem sendExcHandler_spec (st : JobState) (d : Dict) (e : PyExc)
    (r : SendResult) (h : sendExcHandler st d e = Except.ok r) :
    r.ret = false ∧ r.sent = Option.none ∧ r.msgAfter = d := by
  unfold sendExcHandler at h
  split at h
  · split at h
    · cases h; exact ⟨rfl, rfl, rfl⟩
    · cases h; exact ⟨rfl, rfl, rfl⟩
  · cases h; exact ⟨rfl, rfl, rfl⟩

theorem sendExcHandler_ok (st : JobState) (d : Dict) (e : PyExc) :
    ∃ r, sendExcHandler st d e = Except.ok r := by
  unfold sendExcHandler
  split
  · split
    · exact ⟨_, rfl⟩
    · exact ⟨_, rfl⟩
  · exact ⟨_, rfl⟩

theorem send_message_no_socket (st : JobState) (msg : Dict)
    (senv : Except PyExc Unit) (now : Int) (h : st.socket = false) :
    send_message st msg senv now =
      Except.ok ⟨st, false, msg, Option.none, false⟩ := by
  unfold send_message
  rw [if_pos h]

theorem send_message_success (st : JobState) (msg : Dict) (now : Int)
    (s : String) (h : st.socket = true)
    (hd : json_dumps (stampMsg st msg now) = Except.ok s) :
    send_message st msg (Except.ok ()) now =
      Except.ok ⟨st, true, stampMsg st msg now, some (s ++ "\n"), false⟩ := by
  unfold send_message
  rw [if_neg (by simp [h])]
  simp only [hd]

theorem send_message_dumps_error (st : JobState) (msg : Dict)
    (senv : Except PyExc Unit) (now : Int) (e : PyExc) (h : st.socket = true)
    (hd : json_dumps (stampMsg st msg now) = Except.error e) :
    send_message st msg senv now = sendExcHandler st (stampMsg st msg now) e := by
  unfold send_message
  rw [if_neg (by simp [h])]
  simp only [hd]

theorem send_message_transport_error (st : JobState) (msg : Dict)
    (now : Int) (e : PyExc) (s : String) (h : st.socket = true)
    (hd : json_dumps (stampMsg st msg now) = Except.ok s) :
    send_message st msg (Except.error e) now =
      sendExcHandler st (stampMsg st msg now) e := by
  unfold send_message
  rw [if_neg (by simp [h])]
  simp only [hd]

theorem send_message_total (st : JobState) (msg : Dict)
    (senv : Except PyExc Unit) (now : Int) :
    ∃ r, send_message st msg senv now = Except.ok r := by
  by_cases h : st.socket = false
  · exact ⟨_, send_message_no_socket st msg senv now h⟩
  · have h1 : st.socket = true := by
      cases hs : st.socket
      · exact absurd hs h
      · rfl
    cases hd : json_dumps (stampMsg st msg now) with
    | error e =>
      obtain ⟨r, hr⟩ := sendExcHandler_ok st (stampMsg st msg now) e
      exact ⟨r, (send_message_dumps_error st msg senv now e h1 hd).trans hr⟩
    | ok s =>
      cases senv with
      | ok u =>
        exact ⟨_, send_message_success st msg now s h1 hd⟩
      | error e =>
        obtain ⟨r, hr⟩ := sendExcHandler_ok st (stampMsg st msg now) e
        exact ⟨r,
          (send_message_transport_error st msg now e s h1 hd).trans hr⟩

theorem sendMessageRun_eq (st : JobState) (msg : Dict)
    (senv : Except PyExc Unit) (now : Int) :
    send_message st msg senv now = Except.ok (sendMessageRun st msg senv now) := by
  obtain ⟨r, hr⟩ := send_message_total st msg senv now
  unfold sendMessageRun
  rw [hr]

theorem sendMessageRun_error_env_ret (st : JobState) (msg : Dict) (e : PyExc)
    (now : Int) : (sendMessageRun st msg (Except.error e) now).ret = false := by
  by_cases h : st.socket = false
  · unfold sendMessageRun
    rw [send_message_no_socket st msg _ now h]
  · have h1 : st.socket = true := by
      cases hs : st.socket
      · exact absurd hs h
      · rfl
    cases hd : json_dumps (stampMsg st msg now) with
    | error e2 =>
      have := send_message_dumps_error st msg (Except.error e) now e2 h1 hd
      unfold sendMessageRun
      rw [this]
      obtain ⟨r, hr⟩ := sendExcHandler_ok st (stampMsg st msg now) e2
      rw [hr]
      exact (sendExcHandler_spec st _ e2 r hr).1
    | ok s =>
      have := send_message_transport_error st msg now e s h1 hd
      unfold sendMessageRun
      rw [this]
      obtain ⟨r, hr⟩ := sendExcHandler_ok st (stampMsg st msg now) e
      rw [hr]
      exact (sendExcHandler_spec st _ e r hr).1

/-! ### Claims C10 and C1 -/

/-- C10: for every message dictionary, the internal send operation
`_send_message` is total: it never lets an exception escape (every modelled
exception class is caught by the two `except` clauses) and always returns a
boolean; when called before any socket object has been created it returns
`False` immediately: the caller's dict is not stamped with
`jobId`/`timestamp`, nothing is encoded or handed to the transport, and the
instance state is untouched. -/
theorem c10_send_message_total (st : JobState) (msg : Dict)
    (senv : Except PyExc Unit) (now : Int) :
    (∃ r, send_message st msg senv now = Except.ok r) ∧
    (st.socket = false →
      send_message st msg senv now =
        Except.ok ⟨st, false, msg, Option.none, false⟩) := by
  exact ⟨send_message_total st msg senv now,
    fun h => send_message_no_socket st msg senv now h⟩

theorem c10_witness :
    send_message
      (mkJobDefault (PyVal.str "j1") (PyVal.str "demo") PyVal.none
        (PyVal.str "/tmp/x.sock"))
      [("type", PyVal.str "progress")] (Except.ok ()) 0 =
      Except.ok ⟨mkJobDefault (PyVal.str "j1") (PyVal.str "demo") PyVal.none
        (PyVal.str "/tmp/x.sock"),
        false, [("type", PyVal.str "progress")], Option.none, false⟩ :=
  (c10_send_message_total _ _ _ _).2 rfl

/-- C1: a `_send_message` attempt returns `False`, rather than raising, on
any transport-level write failure (`BrokenPipeError`, `ConnectionResetError`,
any `OSError`, and every other exception class) and when no socket has been
created; it returns `True` only when encoding succeeded and the full encoded
frame (the JSON line plus newline) was handed to the transport by `sendall`
in that call. -/
theorem c1_send_contract (st : JobState) (msg : Dict)
    (senv : Except PyExc Unit) (now : Int) :
    ∃ r, send_message st msg senv now = Except.ok r ∧
      ((st.socket = false ∨ senv ≠ Except.ok ()) → r.ret = false) ∧
      (r.ret = true →
        st.socket = true ∧ senv = Except.ok () ∧
        ∃ s, json_dumps (stampMsg st msg now) = Except.ok s ∧
          r.sent = some (s ++ "\n")) := by
  by_cases h : st.socket = false
  · refine ⟨_, send_message_no_socket st msg senv now h, fun _ => rfl, ?_⟩
    intro hc
    exact Bool.noConfusion hc
  · have h1 : st.socket = true := by
      cases hs : st.socket
      · exact absurd hs h
      · rfl
    cases hd : json_dumps (stampMsg st msg now) with
    | error e =>
      obtain ⟨r, hr⟩ := sendExcHandler_ok st (stampMsg st msg now) e
      obtain ⟨hret, hsent, hafter⟩ := sendExcHandler_spec st _ e r hr
      refine ⟨r, (send_message_dumps_error st msg senv now e h1 hd).trans hr,
        fun _ => hret, ?_⟩
      intro hc
      rw [hret] at hc
      exact Bool.noConfusion hc
    | ok s =>
      cases senv with
      | ok u =>
        refine ⟨_, send_message_success st msg now s h1 hd, ?_, ?_⟩
        · intro hc
          rcases hc with h2 | h2
          · exact absurd h2 h
          · exact absurd rfl h2
        · intro _
          exact ⟨h1, rfl, s, rfl, rfl⟩
      | error e =>
        obtain ⟨r, hr⟩ := sendExcHandler_ok st (stampMsg st msg now) e
        obtain ⟨hret, hsent, hafter⟩ := sendExcHandler_spec st _ e r hr
        refine ⟨r,
          (send_message_transport_error st msg now e s h1 hd).trans hr,
          fun _ => hret, ?_⟩
        intro hc
        rw [hret] at hc
        exact Bool.noConfusion hc

theorem c1_witness :
    ∃ r, send_message stConn [("type", PyVal.str "heartbeat")]
        (Except.error PyExc.brokenPipe) 5 = Except.ok r ∧ r.ret = false := by
  obtain ⟨r, h1, h2, h3⟩ := c1_send_contract stConn
    [("type", PyVal.str "heartbeat")] (Except.error PyExc.brokenPipe) 5
  exact ⟨r, h1, h2 (Or.inr (fun h => Except.noConfusion h))⟩

theorem bool_true_of_not_false (b : Bool) (h : ¬ b = false) : b = true := by
  cases b
  · exact absurd rfl h
  · rfl

theorem getKey_setKey_self (d : Dict) (k : String) (v : PyVal) :
    getKey (setKey d k v) k = some v := by
  induction d with
  | nil => simp [setKey, getKey]
  | cons kv rest ih =>
    obtain ⟨k0, v0⟩ := kv
    by_cases h : k0 = k
    · simp [setKey, getKey, h]
    · simp [setKey, getKey, h, ih]

theorem getKey_setKey_ne (d : Dict) (k k2 : String) (v : PyVal)
    (h : k2 ≠ k) : getKey (setKey d k v) k2 = getKey d k2 := by
  have h2 : ¬ (k = k2) := fun hh => h hh.symm
  induction d with
  | nil => simp [setKey, getKey, h2]
  | cons kv rest ih =>
    obtain ⟨k0, v0⟩ := kv
    by_cases h0 : k0 = k
    · subst h0
      simp [setKey, getKey, h2]
    · simp [setKey, getKey, h0, ih]

theorem stampMsg_jobId (st : JobState) (msg : Dict) (now : Int) :
    getKey (stampMsg st msg now) "jobId" = some st.job_id := by
  unfold stampMsg
  rw [getKey_setKey_ne _ _ _ _ (by decide)]
  exact getKey_setKey_self msg "jobId" st.job_id

theorem stampMsg_timestamp (st : JobState) (msg : Dict) (now : Int) :
    getKey (stampMsg st msg now) "timestamp" = some (PyVal.num now) :=
  getKey_setKey_self _ "timestamp" (PyVal.num now)

theorem stampMsg_type (st : JobState) (msg : Dict) (now : Int) :
    getKey (stampMsg st msg now) "type" = getKey msg "type" := by
  unfold stampMsg
  rw [getKey_setKey_ne _ _ _ _ (by decide),
    getKey_setKey_ne _ _ _ _ (by decide)]

theorem sendExcHandler_no_spawn (st : JobState) (d : Dict) (e : PyExc)
    (r : SendResult) (hth : st.reconnect_thread = true)
    (h : sendExcHandler st d e = Except.ok r) :
    r.spawned = false ∧ r.st.reconnect_thread = true := by
  unfold sendExcHandler at h
  split at h
  · split at h
    · exfalso
      simp_all
    · cases h
      exact ⟨rfl, hth⟩
  · cases h
    exact ⟨rfl, hth⟩

/-! ### Claim C3 -/

/-- C3: at most one reconnection sequence is in flight: when a reconnect
thread already exists (`self._reconnect_thread` is not `None`), a
`_send_message` call — in particular one that detects a transport failure —
starts no additional reconnection sequence, and the thread marker is left in
place.  The check-and-set runs under the send lock, so concurrent detecting
senders are serialized and each sees this result. -/
theorem c3_no_second_reconnect (st : JobState) (msg : Dict)
    (senv : Except PyExc Unit) (now : Int)
    (hth : st.reconnect_thread = true) :
    (sendMessageRun st msg senv now).spawned = false ∧
    (sendMessageRun st msg senv now).st.reconnect_thread = true := by
  by_cases hs : st.socket = false
  · unfold sendMessageRun
    rw [send_message_no_socket st msg senv now hs]
    exact ⟨rfl, hth⟩
  · have h1 : st.socket = true := bool_true_of_not_false _ hs
    cases hd : json_dumps (stampMsg st msg now) with
    | error e =>
      unfold sendMessageRun
      rw [send_message_dumps_error st msg senv now e h1 hd]
      obtain ⟨r, hr⟩ := sendExcHandler_ok st (stampMsg st msg now) e
      rw [hr]
      exact sendExcHandler_no_spawn st _ e r hth hr
    | ok s =>
      cases senv with
      | ok u =>
        unfold sendMessageRun
        rw [send_message_success st msg now s h1 hd]
        exact ⟨rfl, hth⟩
      | error e =>
        unfold sendMessageRun
        rw [send_message_transport_error st msg now e s h1 hd]
        obtain ⟨r, hr⟩ := sendExcHandler_ok st (stampMsg st msg now) e
        rw [hr]
        exact sendExcHandler_no_spawn st _ e r hth hr

theorem c3_witness :
    (sendMessageRun
      { stConn with reconnect_thread := true, connected := false }
      [("type", PyVal.str "progress"), ("percent", PyVal.num 10)]
      (Except.error PyExc.connReset) 9).spawned = false :=
  (c3_no_second_reconnect _ _ _ 9 rfl).1

/-! ### Claim C9 -/

theorem progressMsg_type (p : PyVal) (m : Option String) (d : Dict) :
    getKey (progressMsg p m d) "type" = some (PyVal.str "progress") := by
  simp [progressMsg, getKey]

theorem logMsg_type (lv m : String) (d : Dict) :
    getKey (logMsg lv m d) "type" = some (PyVal.str "log") := by
  simp [logMsg, getKey]

theorem completeMsg_type (res : PyVal) :
    getKey (completeMsg res) "type" = some (PyVal.str "completed") := by
  simp [completeMsg, getKey]

theorem failMsg_type (er : String) (sk : Option String) :
    getKey (failMsg er sk) "type" = some (PyVal.str "failed") := by
  simp [failMsg, getKey]

/-- C9: every frame actually handed to the transport is the stamped dict —
it carries the instance's bound `jobId`, a `timestamp` in epoch milliseconds
(`int(time.time() * 1000)`), and the `type` of the constructed event (each
of the six event builders sets one); nothing reaches the wire without a
bound `jobId`, because stamping precedes the write unconditionally. -/
theorem c9_wire_invariant (st : JobState) (msg : Dict)
    (senv : Except PyExc Unit) (now : Int) (r : SendResult)
    (h : send_message st msg senv now = Except.ok r)
    (hs : r.sent.isSome = true) :
    getKey r.msgAfter "jobId" = some st.job_id ∧
    getKey r.msgAfter "timestamp" = some (PyVal.num now) ∧
    getKey r.msgAfter "type" = getKey msg "type" ∧
    (∃ s, r.sent = some (s ++ "\n") ∧ json_dumps r.msgAfter = Except.ok s) ∧
    (∀ p m d, getKey (progressMsg p m d) "type" = some (PyVal.str "progress")) ∧
    (∀ lv m d, getKey (logMsg lv m d) "type" = some (PyVal.str "log")) ∧
    (∀ res, getKey (completeMsg res) "type" = some (PyVal.str "completed")) ∧
    (∀ er sk, getKey (failMsg er sk) "type" = some (PyVal.str "failed")) ∧
    getKey startedMsg "type" = some (PyVal.str "started") ∧
    getKey heartbeatMsg "type" = some (PyVal.str "heartbeat") := by
  by_cases hsock : st.socket = false
  · rw [send_message_no_socket st msg senv now hsock] at h
    cases h
    exact absurd hs (by simp)
  · have h1 : st.socket = true := bool_true_of_not_false _ hsock
    cases hd : json_dumps (stampMsg st msg now) with
    | error e =>
      rw [send_message_dumps_error st msg senv now e h1 hd] at h
      obtain ⟨hret, hsent, hafter⟩ := sendExcHandler_spec st _ e r h
      rw [hsent] at hs
      exact absurd hs (by simp)
    | ok s =>
      cases senv with
      | error e =>
        rw [send_message_transport_error st msg now e s h1 hd] at h
        obtain ⟨hret, hsent, hafter⟩ := sendExcHandler_spec st _ e r h
        rw [hsent] at hs
        exact absurd hs (by simp)
      | ok u =>
        rw [send_message_success st msg now s h1 hd] at h
        cases h
        refine ⟨stampMsg_jobId st msg now, stampMsg_timestamp st msg now,
          stampMsg_type st msg now, ⟨s, rfl, hd⟩,
          progressMsg_type, logMsg_type, completeMsg_type, failMsg_type,
          rfl, rfl⟩

theorem c9_witness :
    getKey (sendMessageRun stConn [("type", PyVal.str "progress")]
      (Except.ok ()) 42).msgAfter "jobId" = some (PyVal.str "j1") ∧
    getKey (sendMessageRun stConn [("type", PyVal.str "progress")]
      (Except.ok ()) 42).msgAfter "timestamp" = some (PyVal.num 42) := by
  have h := c9_wire_invariant stConn [("type", PyVal.str "progress")]
    (Except.ok ()) 42
    (sendMessageRun stConn [("type", PyVal.str "progress")] (Except.ok ()) 42)
    (sendMessageRun_eq stConn [("type", PyVal.str "progress")]
      (Except.ok ()) 42) (by rfl)
  exact ⟨h.1, h.2.1⟩

/-! ### Claim C5 -/

/-- C5 counterexample: for an unencodable (cyclic) payload with a live
socket, `_send_message` does NOT raise an `EncodingError` (or anything
else): the `ValueError` from `json.dumps` is caught by the generic
`except Exception` clause and the call returns `False` — the failure is
swallowed, though no bytes are handed to the transport. -/
theorem c5_counterexample :
    send_message stConn [("type", PyVal.str "log"), ("data", PyVal.circular)]
      (Except.ok ()) 7 =
      Except.ok ⟨stConn, false,
        stampMsg stConn
          [("type", PyVal.str "log"), ("data", PyVal.circular)] 7,
        Option.none, false⟩ := rfl

/-- C5 amended: encoding never fails on well-formed (acyclic) dicts; for an
unencodable (cyclic) payload the send path catches the encoding exception
and returns `False` without handing any bytes to the transport and without
touching the instance state — it does not raise an `EncodingError`. -/
theorem c5_amended :
    (∀ d : Dict, dictCirc d = false →
      json_dumps d = Except.ok ("\x7b" ++ dictSer d ++ "\x7d")) ∧
    (∀ (st : JobState) (msg : Dict) (senv : Except PyExc Unit) (now : Int),
      st.socket = true → dictCirc (stampMsg st msg now) = true →
      send_message st msg senv now =
        Except.ok ⟨st, false, stampMsg st msg now, Option.none, false⟩) := by
  constructor
  · intro d h
    simp [json_dumps, h]
  · intro st msg senv now hsock hcirc
    have hd : json_dumps (stampMsg st msg now) =
        Except.error PyExc.valueError := by
      simp [json_dumps, hcirc]
    rw [send_message_dumps_error st msg senv now _ hsock hd]
    rfl

theorem c5_amended_witness :
    json_dumps [("type", PyVal.str "log")] =
      Except.ok ("\x7b" ++ dictSer [("type", PyVal.str "log")] ++ "\x7d") ∧
    send_message stConn [("data", PyVal.circular)] (Except.ok ()) 3 =
      Except.ok ⟨stConn, false, stampMsg stConn [("data", PyVal.circular)] 3,
        Option.none, false⟩ :=
  ⟨c5_amended.1 _ rfl, c5_amended.2 stConn _ _ 3 rfl rfl⟩

/-! ### Claim C6 -/

/-- C6 counterexample: `log` puts `message` in the event unconditionally —
`job.log("info", "")` produces a dict whose `message` field is present and
empty, contradicting "message appears on log events only when non-empty". -/
theorem c6_counterexample :
    getKey (logMsg "info" "" []) "message" = some (PyVal.str "") := rfl

/-- C6 amended: on `progress`, `message` is present exactly when provided
and non-empty; on `log`, `message` is a required field and always present
(even when empty); `data` is present exactly when the caller supplied extra
keyword fields; `result` is present on `completed` exactly when the result
`is not None`; `stack` is present on `failed` exactly when a non-empty stack
was provided. -/
theorem c6_amended :
    (∀ p m d, (getKey (progressMsg p m d) "message").isSome = truthyStr m) ∧
    (∀ p m d, (getKey (progressMsg p m d) "data").isSome = !d.isEmpty) ∧
    (∀ lv m d, getKey (logMsg lv m d) "message" = some (PyVal.str m)) ∧
    (∀ lv m d, (getKey (logMsg lv m d) "data").isSome = !d.isEmpty) ∧
    (∀ res, (getKey (completeMsg res) "result").isSome = !res.isNone) ∧
    (∀ er sk, (getKey (failMsg er sk) "stack").isSome = truthyStr sk) := by
  refine ⟨?_, ?_, ?_, ?_, ?_, ?_⟩
  · intro p m d
    cases m with
    | none =>
      by_cases hd : d.isEmpty <;>
        simp [progressMsg, getKey, truthyStr, hd]
    | some mm =>
      by_cases hm : (mm == "") = true <;>
        by_cases hd : d.isEmpty <;>
          simp [progressMsg, getKey, truthyStr, hm, hd]
  · intro p m d
    cases m with
    | none =>
      by_cases hd : d.isEmpty <;>
        simp [progressMsg, getKey, hd]
    | some mm =>
      by_cases hm : (mm == "") = true <;>
        by_cases hd : d.isEmpty <;>
          simp [progressMsg, getKey, hm, hd]
  · intro lv m d
    by_cases hd : d.isEmpty <;> simp [logMsg, getKey, hd]
  · intro lv m d
    by_cases hd : d.isEmpty <;> simp [logMsg, getKey, hd]
  · intro res
    by_cases hr : res.isNone = true <;> simp [completeMsg, getKey, hr]
  · intro er sk
    cases sk with
    | none => simp [failMsg, getKey, truthyStr]
    | some ss =>
      by_cases hs : (ss == "") = true <;>
        simp [failMsg, getKey, truthyStr, hs]

theorem c6_amended_witness :
    (getKey (progressMsg (PyVal.num 40) (some "hi") []) "message").isSome =
      truthyStr (some "hi") ∧
    (getKey (completeMsg PyVal.none) "result").isSome =
      !(PyVal.none).isNone :=
  ⟨c6_amended.1 (PyVal.num 40) (some "hi") [], c6_amended.2.2.2.2.1 PyVal.none⟩

/-! ### Claim C7 -/

/-- A concrete instance whose link is down (send failures pending). -/
def stDown : JobState := { stConn with connected := false }

/-- C7 counterexample: `progress` (and likewise `log`) does not return
`false` while the link is down — the Python methods are annotated
`-> None`, discard the boolean from `_send_message`, and return `None`. -/
theorem c7_counterexample :
    (progress stDown (PyVal.num 50) (some "halfway") []
        (Except.error PyExc.brokenPipe) 3).ret = PyVal.none ∧
    (progress stDown (PyVal.num 50) (some "halfway") []
        (Except.error PyExc.brokenPipe) 3).ret ≠ PyVal.bool false :=
  ⟨rfl, fun h => PyVal.noConfusion h⟩

/-- C7 amended: while the link is down, `progress` and `log` return `None`
(they discard the boolean from the internal send, which itself returns
`false` on the transport failure) and they never raise; the failing send
never runs the reconnection procedure synchronously — it at most spawns a
background reconnect thread, so the caller is not blocked. -/
theorem c7_amended (st : JobState) (pc : PyVal) (m : Option String)
    (lv ms : String) (d : Dict) (e : PyExc) (now : Int) :
    (progress st pc m d (Except.error e) now).ret = PyVal.none ∧
    (log st lv ms d (Except.error e) now).ret = PyVal.none ∧
    (progress st pc m d (Except.error e) now).sendRes.ret = false ∧
    (log st lv ms d (Except.error e) now).sendRes.ret = false := by
  refine ⟨rfl, rfl, ?_, ?_⟩
  · exact sendMessageRun_error_env_ret st _ e now
  · exact sendMessageRun_error_env_ret st _ e now

theorem c7_amended_witness :
    (progress stDown (PyVal.num 50) Option.none []
        (Except.error PyExc.osError) 3).ret = PyVal.none ∧
    (progress stDown (PyVal.num 50) Option.none []
        (Except.error PyExc.osError) 3).sendRes.ret = false := by
  have h := c7_amended stDown (PyVal.num 50) Option.none "info" "x" []
    PyExc.osError 3
  exact ⟨h.1, h.2.2.1⟩

/-! ### Reconnection-loop characterization -/

/-- Number of `_do_connect` attempts recorded in a trace. -/
def attemptCount : List RAct → ℕ
  | [] => 0
  | RAct.connectAttempt :: r => attemptCount r + 1
  | _ :: r => attemptCount r

/-- Number of stale-socket closes recorded in a trace. -/
def closeCount : List RAct → ℕ
  | [] => 0
  | RAct.closeSocket :: r => closeCount r + 1
  | _ :: r => closeCount r

/-- Number of sleeps recorded in a trace. -/
def sleepCount : List RAct → ℕ
  | [] => 0
  | RAct.sleep _ :: r => sleepCount r + 1
  | _ :: r => sleepCount r

/-- The trace of `n` consecutive failed reconnect attempts. -/
def failedTrace (q : ℚ) : ℕ → List RAct
  | 0 => []
  | n+1 => [RAct.closeSocket, RAct.connectAttempt, RAct.sleep q]
      ++ failedTrace q n

theorem attemptCount_append (a b : List RAct) :
    attemptCount (a ++ b) = attemptCount a + attemptCount b := by
  induction a with
  | nil => simp [attemptCount]
  | cons x r ih => cases x <;> (simp [attemptCount, ih]; try omega)

theorem closeCount_append (a b : List RAct) :
    closeCount (a ++ b) = closeCount a + closeCount b := by
  induction a with
  | nil => simp [closeCount]
  | cons x r ih => cases x <;> (simp [closeCount, ih]; try omega)

theorem sleepCount_append (a b : List RAct) :
    sleepCount (a ++ b) = sleepCount a + sleepCount b := by
  induction a with
  | nil => simp [sleepCount]
  | cons x r ih => cases x <;> (simp [sleepCount, ih]; try omega)

theorem socket_update_id (st : JobState) (h : st.socket = true) :
    ({ st with socket := true } : JobState) = st := by
  cases st with
  | mk j n dt sp hb ri mra so hbt rt ru co =>
    dsimp only at h
    subst h
    rfl

theorem sendMessageRun_ok_env_st (st : JobState) (msg : Dict) (now : Int) :
    (sendMessageRun st msg (Except.ok ()) now).st = st := by
  by_cases hs : st.socket = false
  · unfold sendMessageRun
    rw [send_message_no_socket st msg _ now hs]
  · have h1 := bool_true_of_not_false _ hs
    cases hd : json_dumps (stampMsg st msg now) with
    | error e =>
      have he : e = PyExc.valueError := by
        unfold json_dumps at hd
        split at hd
        · injection hd with h2
          exact h2.symm
        · exact Except.noConfusion hd
      subst he
      unfold sendMessageRun
      rw [send_message_dumps_error st msg _ now _ h1 hd]
      rfl
    | ok s =>
      unfold sendMessageRun
      rw [send_message_success st msg now s h1 hd]

theorem tryReconnectLoop_step_ok (oc : ℕ → Except PyExc Unit)
    (senv : Except PyExc Unit) (now : Int) (i fuel : ℕ) (st : JobState)
    (hsock : st.socket = true) (u : Unit) (hoc : oc i = Except.ok u) :
    tryReconnectLoop oc senv now i (fuel+1) st =
      (true,
       (sendMessageRun { st with connected := true } startedMsg senv now).st,
       [RAct.closeSocket, RAct.connectAttempt, RAct.sentStarted]) := by
  have hc : do_connect st (oc i) = (st, Except.ok u) := by
    rw [hoc]
    unfold do_connect
    rw [socket_update_id st hsock]
  simp [tryReconnectLoop, hc, hsock]

theorem tryReconnectLoop_step_err (oc : ℕ → Except PyExc Unit)
    (senv : Except PyExc Unit) (now : Int) (i fuel : ℕ) (st : JobState)
    (hsock : st.socket = true) (e : PyExc) (hoc : oc i = Except.error e) :
    tryReconnectLoop oc senv now i (fuel+1) st =
      ((tryReconnectLoop oc senv now (i+1) fuel st).1,
       (tryReconnectLoop oc senv now (i+1) fuel st).2.1,
       [RAct.closeSocket, RAct.connectAttempt,
        RAct.sleep st.reconnect_interval]
         ++ (tryReconnectLoop oc senv now (i+1) fuel st).2.2) := by
  have hc : do_connect st (oc i) = (st, Except.error e) := by
    rw [hoc]
    unfold do_connect
    rw [socket_update_id st hsock]
  simp [tryReconnectLoop, hc, hsock]

theorem tryReconnectLoop_allFail (oc : ℕ → Except PyExc Unit)
    (senv : Except PyExc Unit) (now : Int) :
    ∀ (fuel i : ℕ) (st : JobState), st.socket = true →
      (∀ k, k < fuel → oc (i + k) ≠ Except.ok ()) →
      tryReconnectLoop oc senv now i fuel st =
        (false, st, failedTrace st.reconnect_interval fuel) := by
  intro fuel
  induction fuel with
  | zero =>
    intro i st hsock hf
    rfl
  | succ n ih =>
    intro i st hsock hf
    cases hoc : oc i with
    | ok u =>
      exact absurd (by rw [Nat.add_zero, hoc]) (hf 0 (by omega))
    | error e =>
      rw [tryReconnectLoop_step_err oc senv now i n st hsock e hoc]
      rw [ih (i+1) st hsock (fun k hk => by
        have h2 := hf (k+1) (by omega)
        rw [show i + (k+1) = i + 1 + k from by omega] at h2
        exact h2)]
      rfl

theorem tryReconnectLoop_true_iff (oc : ℕ → Except PyExc Unit)
    (senv : Except PyExc Unit) (now : Int) :
    ∀ (fuel i : ℕ) (st : JobState), st.socket = true →
      ((tryReconnectLoop oc senv now i fuel st).1 = true ↔
        ∃ k, k < fuel ∧ oc (i + k) = Except.ok ()) := by
  intro fuel
  induction fuel with
  | zero =>
    intro i st hsock
    constructor
    · intro h
      exact absurd h (by simp [tryReconnectLoop])
    · rintro ⟨k, hk, _⟩
      omega
  | succ n ih =>
    intro i st hsock
    cases hoc : oc i with
    | ok u =>
      rw [tryReconnectLoop_step_ok oc senv now i n st hsock u hoc]
      constructor
      · intro _
        exact ⟨0, by omega, by rw [Nat.add_zero, hoc]⟩
      · intro _
        rfl
    | error e =>
      rw [tryReconnectLoop_step_err oc senv now i n st hsock e hoc]
      rw [show ((tryReconnectLoop oc senv now (i+1) n st).1,
          (tryReconnectLoop oc senv now (i+1) n st).2.1,
          [RAct.closeSocket, RAct.connectAttempt,
           RAct.sleep st.reconnect_interval]
            ++ (tryReconnectLoop oc senv now (i+1) n st).2.2).1 =
          (tryReconnectLoop oc senv now (i+1) n st).1 from rfl]
      rw [ih (i+1) st hsock]
      constructor
      · rintro ⟨k, hk, hok⟩
        exact ⟨k+1, by omega,
          by rw [show i + (k+1) = i + 1 + k from by omega]; exact hok⟩
      · rintro ⟨k, hk, hok⟩
        cases k with
        | zero =>
          rw [Nat.add_zero, hoc] at hok
          exact Except.noConfusion hok
        | succ k2 =>
          exact ⟨k2, by omega,
            by rw [show i + 1 + k2 = i + (k2+1) from by omega]; exact hok⟩

theorem tryReconnectLoop_success_spec (oc : ℕ → Except PyExc Unit)
    (now : Int) :
    ∀ (fuel i : ℕ) (st : JobState), st.socket = true →
      (tryReconnectLoop oc (Except.ok ()) now i fuel st).1 = true →
      ((tryReconnectLoop oc (Except.ok ()) now i fuel st).2.1.connected
          = true ∧
       RAct.sentStarted
          ∈ (tryReconnectLoop oc (Except.ok ()) now i fuel st).2.2) := by
  intro fuel
  induction fuel with
  | zero =>
    intro i st hsock h
    exact absurd h (by simp [tryReconnectLoop])
  | succ n ih =>
    intro i st hsock h
    cases hoc : oc i with
    | ok u =>
      rw [tryReconnectLoop_step_ok oc (Except.ok ()) now i n st hsock u hoc]
      constructor
      · rw [show (true,
            (sendMessageRun { st with connected := true } startedMsg
              (Except.ok ()) now).st,
            [RAct.closeSocket, RAct.connectAttempt,
             RAct.sentStarted]).2.1 =
            (sendMessageRun { st with connected := true } startedMsg
              (Except.ok ()) now).st from rfl]
        rw [sendMessageRun_ok_env_st]
      · simp
    | error e =>
      rw [tryReconnectLoop_step_err oc (Except.ok ()) now i n st hsock e hoc]
        at h ⊢
      have h2 := ih (i+1) st hsock h
      exact ⟨h2.1, by simp [h2.2]⟩

theorem tryReconnectLoop_attemptCount_le (oc : ℕ → Except PyExc Unit)
    (senv : Except PyExc Unit) (now : Int) :
    ∀ (fuel i : ℕ) (st : JobState), st.socket = true →
      attemptCount (tryReconnectLoop oc senv now i fuel st).2.2 ≤ fuel := by
  intro fuel
  induction fuel with
  | zero =>
    intro i st hsock
    simp [tryReconnectLoop, attemptCount]
  | succ n ih =>
    intro i st hsock
    cases hoc : oc i with
    | ok u =>
      rw [tryReconnectLoop_step_ok oc senv now i n st hsock u hoc]
      simp [attemptCount]
    | error e =>
      rw [tryReconnectLoop_step_err oc senv now i n st hsock e hoc]
      have h2 := ih (i+1) st hsock
      show attemptCount
          ([RAct.closeSocket, RAct.connectAttempt,
            RAct.sleep st.reconnect_interval]
            ++ (tryReconnectLoop oc senv now (i+1) n st).2.2) ≤ n + 1
      rw [attemptCount_append]
      have h3 : attemptCount [RAct.closeSocket, RAct.connectAttempt,
          RAct.sleep st.reconnect_interval] = 1 := rfl
      omega

theorem tryReconnectLoop_closeCount (oc : ℕ → Except PyExc Unit)
    (senv : Except PyExc Unit) (now : Int) :
    ∀ (fuel i : ℕ) (st : JobState), st.socket = true →
      closeCount (tryReconnectLoop oc senv now i fuel st).2.2 =
        attemptCount (tryReconnectLoop oc senv now i fuel st).2.2 := by
  intro fuel
  induction fuel with
  | zero =>
    intro i st hsock
    simp [tryReconnectLoop, attemptCount, closeCount]
  | succ n ih =>
    intro i st hsock
    cases hoc : oc i with
    | ok u =>
      rw [tryReconnectLoop_step_ok oc senv now i n st hsock u hoc]
      simp [attemptCount, closeCount]
    | error e =>
      rw [tryReconnectLoop_step_err oc senv now i n st hsock e hoc]
      have h2 := ih (i+1) st hsock
      show closeCount
          ([RAct.closeSocket, RAct.connectAttempt,
            RAct.sleep st.reconnect_interval]
            ++ (tryReconnectLoop oc senv now (i+1) n st).2.2) =
        attemptCount
          ([RAct.closeSocket, RAct.connectAttempt,
            RAct.sleep st.reconnect_interval]
            ++ (tryReconnectLoop oc senv now (i+1) n st).2.2)
      rw [closeCount_append, attemptCount_append]
      have h3 : closeCount [RAct.closeSocket, RAct.connectAttempt,
          RAct.sleep st.reconnect_interval] = 1 := rfl
      have h4 : attemptCount [RAct.closeSocket, RAct.connectAttempt,
          RAct.sleep st.reconnect_interval] = 1 := rfl
      omega

theorem tryReconnectLoop_sleepCount (oc : ℕ → Except PyExc Unit)
    (senv : Except PyExc Unit) (now : Int) :
    ∀ (fuel i : ℕ) (st : JobState), st.socket = true →
      sleepCount (tryReconnectLoop oc senv now i fuel st).2.2 +
        (if (tryReconnectLoop oc senv now i fuel st).1 = true then 1 else 0) =
        attemptCount (tryReconnectLoop oc senv now i fuel st).2.2 := by
  intro fuel
  induction fuel with
  | zero =>
    intro i st hsock
    simp [tryReconnectLoop, attemptCount, sleepCount]
  | succ n ih =>
    intro i st hsock
    cases hoc : oc i with
    | ok u =>
      rw [tryReconnectLoop_step_ok oc senv now i n st hsock u hoc]
      simp [attemptCount, sleepCount]
    | error e =>
      rw [tryReconnectLoop_step_err oc senv now i n st hsock e hoc]
      have h2 := ih (i+1) st hsock
      show sleepCount
          ([RAct.closeSocket, RAct.connectAttempt,
            RAct.sleep st.reconnect_interval]
            ++ (tryReconnectLoop oc senv now (i+1) n st).2.2) +
          (if (tryReconnectLoop oc senv now (i+1) n st).1 = true
            then 1 else 0) =
        attemptCount
          ([RAct.closeSocket, RAct.connectAttempt,
            RAct.sleep st.reconnect_interval]
            ++ (tryReconnectLoop oc senv now (i+1) n st).2.2)
      rw [sleepCount_append, attemptCount_append]
      have h3 : sleepCount [RAct.closeSocket, RAct.connectAttempt,
          RAct.sleep st.reconnect_interval] = 1 := rfl
      have h4 : attemptCount [RAct.closeSocket, RAct.connectAttempt,
          RAct.sleep st.reconnect_interval] = 1 := rfl
      cases hsp : (tryReconnectLoop oc senv now (i+1) n st).1 with
      | false =>
        simp [hsp] at h2 ⊢
        omega
      | true =>
        simp [hsp] at h2 ⊢
        omega

theorem tryReconnectLoop_sleep_val (oc : ℕ → Except PyExc Unit)
    (senv : Except PyExc Unit) (now : Int) :
    ∀ (fuel i : ℕ) (st : JobState), st.socket = true → ∀ q : ℚ,
      RAct.sleep q ∈ (tryReconnectLoop oc senv now i fuel st).2.2 →
      q = st.reconnect_interval := by
  intro fuel
  induction fuel with
  | zero =>
    intro i st hsock q hq
    exact absurd hq (by simp [tryReconnectLoop])
  | succ n ih =>
    intro i st hsock q hq
    cases hoc : oc i with
    | ok u =>
      rw [tryReconnectLoop_step_ok oc senv now i n st hsock u hoc] at hq
      simp at hq
    | error e =>
      rw [tryReconnectLoop_step_err oc senv now i n st hsock e hoc] at hq
      simp at hq
      rcases hq with h1 | h2
      · exact h1
      · exact ih (i+1) st hsock q h2

theorem try_reconnect_not_connected (st : JobState)
    (oc : ℕ → Except PyExc Unit) (senv : Except PyExc Unit) (now : Int)
    (hconn : st.connected = false) :
    try_reconnect st oc senv now =
      tryReconnectLoop oc senv now 0 st.max_reconnect_attempts st := by
  unfold try_reconnect
  rw [if_neg (by simp [hconn])]

theorem sendMessageRun_spawn (st : JobState) (msg : Dict) (e : PyExc)
    (now : Int) (hsock : st.socket = true) (hrun : st.running = true)
    (hth : st.reconnect_thread = false) (hos : e.isOSErrorFamily = true)
    (hcirc : dictCirc (stampMsg st msg now) = false) :
    (sendMessageRun st msg (Except.error e) now).spawned = true := by
  have hd : json_dumps (stampMsg st msg now) =
      Except.ok ("\x7b" ++ dictSer (stampMsg st msg now) ++ "\x7d") := by
    simp [json_dumps, hcirc]
  unfold sendMessageRun
  rw [send_message_transport_error st msg now e _ hsock hd]
  unfold sendExcHandler
  rw [if_pos hos, if_pos ⟨hrun, hth⟩]

/-! ### Claim C4 -/

/-- C4: with the link down, `_try_reconnect` performs at most
`max_reconnect_attempts` sequential `_do_connect` attempts (the same
endpoint-connect procedure `connect` uses); every attempt first closes the
stale socket handle (close count equals attempt count when a handle
exists); it returns success iff one of the first `max_reconnect_attempts`
connect outcomes succeeds, in which case the link is marked connected and a
fresh started event is emitted; every recorded sleep lasts
`reconnect_interval` seconds and each failed attempt sleeps exactly once
(sleep count + 1-if-success = attempt count); when all attempts fail it
returns failure with the state unchanged and the full failure trace; the
`__init__` defaults are 30 attempts and a 2.0-second interval. -/
theorem c4_reconnect_algorithm (st : JobState) (oc : ℕ → Except PyExc Unit)
    (now : Int) (hconn : st.connected = false) (hsock : st.socket = true) :
    attemptCount (try_reconnect st oc (Except.ok ()) now).2.2 ≤
      st.max_reconnect_attempts ∧
    closeCount (try_reconnect st oc (Except.ok ()) now).2.2 =
      attemptCount (try_reconnect st oc (Except.ok ()) now).2.2 ∧
    ((try_reconnect st oc (Except.ok ()) now).1 = true ↔
      ∃ k, k < st.max_reconnect_attempts ∧ oc k = Except.ok ()) ∧
    ((try_reconnect st oc (Except.ok ()) now).1 = true →
      (try_reconnect st oc (Except.ok ()) now).2.1.connected = true ∧
      RAct.sentStarted ∈ (try_reconnect st oc (Except.ok ()) now).2.2) ∧
    (∀ q, RAct.sleep q ∈ (try_reconnect st oc (Except.ok ()) now).2.2 →
      q = st.reconnect_interval) ∧
    (sleepCount (try_reconnect st oc (Except.ok ()) now).2.2 +
      (if (try_reconnect st oc (Except.ok ()) now).1 = true then 1 else 0) =
      attemptCount (try_reconnect st oc (Except.ok ()) now).2.2) ∧
    ((∀ k, k < st.max_reconnect_attempts → oc k ≠ Except.ok ()) →
      try_reconnect st oc (Except.ok ()) now =
        (false, st,
          failedTrace st.reconnect_interval st.max_reconnect_attempts)) ∧
    (∀ j n d sp, (mkJobDefault j n d sp).max_reconnect_attempts = 30 ∧
      (mkJobDefault j n d sp).reconnect_interval = 2) := by
  rw [try_reconnect_not_connected st oc (Except.ok ()) now hconn]
  refine ⟨tryReconnectLoop_attemptCount_le oc (Except.ok ()) now
      st.max_reconnect_attempts 0 st hsock,
    tryReconnectLoop_closeCount oc (Except.ok ()) now
      st.max_reconnect_attempts 0 st hsock, ?_,
    tryReconnectLoop_success_spec oc now st.max_reconnect_attempts 0 st hsock,
    tryReconnectLoop_sleep_val oc (Except.ok ()) now
      st.max_reconnect_attempts 0 st hsock,
    tryReconnectLoop_sleepCount oc (Except.ok ()) now
      st.max_reconnect_attempts 0 st hsock, ?_,
    fun j n d sp => ⟨rfl, rfl⟩⟩
  · have hiff := tryReconnectLoop_true_iff oc (Except.ok ()) now
      st.max_reconnect_attempts 0 st hsock
    simp only [Nat.zero_add] at hiff
    exact hiff
  · intro hf
    exact tryReconnectLoop_allFail oc (Except.ok ()) now
      st.max_reconnect_attempts 0 st hsock
      (fun k hk => by rw [Nat.zero_add]; exact hf k hk)

/-- A connect-outcome environment whose first attempt fails and whose
second succeeds. -/
def ocOneFail : ℕ → Except PyExc Unit :=
  fun k => if k = 0 then Except.error PyExc.osError else Except.ok ()

theorem c4_witness :
    (try_reconnect stDown ocOneFail (Except.ok ()) 5).1 = true ∧
    (try_reconnect stDown ocOneFail (Except.ok ()) 5).2.1.connected = true := by
  have h := c4_reconnect_algorithm stDown ocOneFail 5 rfl rfl
  have h1 : (try_reconnect stDown ocOneFail (Except.ok ()) 5).1 = true :=
    h.2.2.1.mpr ⟨1, by decide, rfl⟩
  exact ⟨h1, (h.2.2.2.1 h1).1⟩

/-! ### Claim C2 -/

/-- The instance state as seen by the reconnect thread after a failed send
spawned it: link down, reconnect thread marker set. -/
def stInReconnect : JobState :=
  { stConn with connected := false, reconnect_thread := true }

/-- A connect-outcome environment in which every attempt fails. -/
def ocAllFail : ℕ → Except PyExc Unit := fun _ => Except.error PyExc.osError

/-- C2 counterexample: after all 30 reconnect attempts fail,
`_reconnect_loop` clears the thread marker and there is no `Detached`
state: the very next send that hits a transport failure spawns a fresh
reconnection sequence — contradicting "no further automatic reconnection
sequence is ever started for the rest of the process". -/
theorem c2_counterexample :
    (reconnect_loop stInReconnect ocAllFail (Except.ok ()) 0).1 = false ∧
    (sendMessageRun
      (reconnect_loop stInReconnect ocAllFail (Except.ok ()) 0).2.1
      [("type", PyVal.str "progress"), ("percent", PyVal.num 50)]
      (Except.error PyExc.brokenPipe) 1).spawned = true :=
  ⟨rfl, rfl⟩

/-- C2 amended: after `max_reconnect_attempts` consecutive failures the
reconnection procedure returns failure, leaving the link disconnected and
clearing the reconnect-thread marker; the Link is NOT permanently detached:
subsequent sends that hit a transport error still return `false`
immediately (no blocking on reconnection within the call), but — while
`_running` holds — an OS-level send failure on an encodable message starts
a new automatic reconnection sequence. -/
theorem c2_amended (st : JobState) (oc : ℕ → Except PyExc Unit) (now : Int)
    (hconn : st.connected = false) (hsock : st.socket = true)
    (hrun : st.running = true)
    (hfail : ∀ k, k < st.max_reconnect_attempts → oc k ≠ Except.ok ()) :
    (reconnect_loop st oc (Except.ok ()) now).1 = false ∧
    (reconnect_loop st oc (Except.ok ()) now).2.1.connected = false ∧
    (reconnect_loop st oc (Except.ok ()) now).2.1.reconnect_thread = false ∧
    (reconnect_loop st oc (Except.ok ()) now).2.1.running = true ∧
    (reconnect_loop st oc (Except.ok ()) now).2.1.socket = true ∧
    (∀ msg e now2,
      (sendMessageRun (reconnect_loop st oc (Except.ok ()) now).2.1 msg
        (Except.error e) now2).ret = false) ∧
    (∀ msg e now2, PyExc.isOSErrorFamily e = true →
      dictCirc (stampMsg (reconnect_loop st oc (Except.ok ()) now).2.1 msg
        now2) = false →
      (sendMessageRun (reconnect_loop st oc (Except.ok ()) now).2.1 msg
        (Except.error e) now2).spawned = true) := by
  have hall := tryReconnectLoop_allFail oc (Except.ok ()) now
    st.max_reconnect_attempts 0 st hsock
    (fun k hk => by rw [Nat.zero_add]; exact hfail k hk)
  have hrl : reconnect_loop st oc (Except.ok ()) now =
      (false, { st with reconnect_thread := false },
       failedTrace st.reconnect_interval st.max_reconnect_attempts) := by
    unfold reconnect_loop
    rw [try_reconnect_not_connected st oc (Except.ok ()) now hconn, hall]
  rw [hrl]
  refine ⟨rfl, hconn, rfl, hrun, hsock, ?_, ?_⟩
  · intro msg e now2
    exact sendMessageRun_error_env_ret _ msg e now2
  · intro msg e now2 hos hcirc
    exact sendMessageRun_spawn _ msg e now2 hsock hrun rfl hos hcirc

theorem c2_amended_witness :
    (reconnect_loop stInReconnect ocAllFail (Except.ok ()) 2).1 = false ∧
    (sendMessageRun
      (reconnect_loop stInReconnect ocAllFail (Except.ok ()) 2).2.1
      [("type", PyVal.str "log")] (Except.error PyExc.osError) 3).spawned =
      true := by
  have h := c2_amended stInReconnect ocAllFail 2 rfl rfl rfl
    (fun k hk hok => Except.noConfusion hok)
  exact ⟨h.1,
    h.2.2.2.2.2.2 [("type", PyVal.str "log")] PyExc.osError 3 rfl rfl⟩

/-! ### Claim C8 -/

theorem connect_ok (st : JobState) (senv : Except PyExc Unit) (now : Int) :
    connect st (Except.ok ()) senv now =
      ((sendMessageRun
          { st with
              socket := true, running := true, connected := true,
              heartbeat_thread := true }
          startedMsg senv now).st,
       Except.ok (),
       some (sendMessageRun
          { st with
              socket := true, running := true, connected := true,
              heartbeat_thread := true }
          startedMsg senv now)) := by
  unfold connect do_connect
  rfl

/-- C8: `run_job` exits 0 when the handler returns normally (with a working
connection) and 1 when the handler raises; and it fails fast — exit code 1
with no connection attempt — when no stdin line is available, when the line
fails to parse, or when after the environment fallback the job id or the
connection target is still missing/falsy. -/
theorem c8_run_job_exit_codes
    (handler : JobState → JobState × Except (String × String) PyVal)
    (re : RunEnv) :
    (re.stdin = StdinPayload.eof →
      run_job handler re = ⟨1, false, Option.none⟩) ∧
    (re.stdin = StdinPayload.parseFailure →
      run_job handler re = ⟨1, false, Option.none⟩) ∧
    (∀ payload, re.stdin = StdinPayload.parsed payload →
      ((resolvedJobId payload re.env).truthy = false ∨
       (resolvedSocketPath payload re.env).truthy = false) →
      run_job handler re = ⟨1, false, Option.none⟩) ∧
    (∀ payload, re.stdin = StdinPayload.parsed payload →
      (resolvedJobId payload re.env).truthy = true →
      (resolvedSocketPath payload re.env).truthy = true →
      re.connectResult = Except.ok () →
      (∀ v, (∀ s, (handler s).2 = Except.ok v) →
        (run_job handler re).exitCode = 0) ∧
      (∀ me, (∀ s, (handler s).2 = Except.error me) →
        (run_job handler re).exitCode = 1)) := by
  refine ⟨?_, ?_, ?_, ?_⟩
  · intro h
    unfold run_job
    rw [h]
  · intro h
    unfold run_job
    rw [h]
  · intro payload h hmiss
    unfold run_job
    rw [h]
    dsimp only
    rw [if_pos hmiss]
  · intro payload h hj hs hc
    constructor
    · intro v hok
      unfold run_job
      rw [h]
      dsimp only
      rw [if_neg (by simp [hj, hs]), hc, connect_ok]
      dsimp only
      rw [hok]
    · intro me herr
      unfold run_job
      rw [h]
      dsimp only
      rw [if_neg (by simp [hj, hs]), hc, connect_ok]
      dsimp only
      rw [herr]

/-- The handshake payload of the witness run. -/
def payloadGood : Dict :=
  [("jobId", PyVal.str "j1"), ("socketPath", PyVal.str "/tmp/x.sock")]

/-- An empty process environment. -/
def envEmpty : Environ := ⟨Option.none, Option.none, Option.none⟩

/-- A witness run environment: good handshake, all transports healthy. -/
def reGood : RunEnv :=
  ⟨StdinPayload.parsed payloadGood, envEmpty, 5, 0, Except.ok (),
   Except.ok (), Except.ok ()⟩

/-- The witness run environment with no handshake line on stdin. -/
def reEof : RunEnv := { reGood with stdin := StdinPayload.eof }

/-- A handler that returns normally. -/
def okHandler : JobState → JobState × Except (String × String) PyVal :=
  fun s => (s, Except.ok (PyVal.str "done"))

theorem c8_witness :
    (run_job okHandler reGood).exitCode = 0 ∧
    run_job okHandler reEof = ⟨1, false, Option.none⟩ := by
  have h := c8_run_job_exit_codes okHandler reGood
  have h2 := c8_run_job_exit_codes okHandler reEof
  exact ⟨(h.2.2.2 payloadGood rfl rfl rfl rfl).1 (PyVal.str "done")
      (fun s => rfl),
    h2.1 rfl⟩

end DonkeylabsJob
